import Mathlib

/-!
Verification of the request/response modeling layer of the `google.genai`
Python SDK (file `src/google/genai/types.py`, plus the test tables under
`src/google/genai/tests/`).

The Python classes are pydantic models whose fields are all `Optional` with
default `None`; they are embedded as Lean structures of `Option` fields, in
source declaration order.  String-`Literal` type aliases of the source
(`JobState`, `Language`, `Outcome`, ...) are embedded as plain `String`s,
since every function under verification compares them as plain strings.
Fields of the large declarative catalog that no verified function consults
are omitted from a structure only where the accompanying doc comment says so.
-/

namespace Genai

/-- JSON-like scalar values standing for the `dict[str, Any]` payloads of
`FunctionCall.args` and `FunctionResponse.response`.  No function under
verification inspects these payloads, only their presence (`None` vs set). -/
inductive PyValue where
  | null
  | str (s : String)
  | int (n : Int)
  | boolean (b : Bool)
deriving DecidableEq

/-- `VideoMetadata` (types.py): end/start offsets of a video. -/
structure VideoMetadata where
  end_offset : Option String := none
  start_offset : Option String := none
deriving DecidableEq

/-- `CodeExecutionResult` (types.py): `outcome` is an `Outcome` string literal. -/
structure CodeExecutionResult where
  outcome : Option String := none
  output : Option String := none
deriving DecidableEq

/-- `ExecutableCode` (types.py): `language` is a `Language` string literal. -/
structure ExecutableCode where
  code : Option String := none
  language : Option String := none
deriving DecidableEq

/-- `FileData` (types.py): URI based data. -/
structure FileData where
  file_uri : Option String := none
  mime_type : Option String := none
deriving DecidableEq

/-- `FunctionCall` (types.py). -/
structure FunctionCall where
  args : Option (List (String × PyValue)) := none
  name : Option String := none
deriving DecidableEq

/-- `FunctionResponse` (types.py). -/
structure FunctionResponse where
  name : Option String := none
  response : Option (List (String × PyValue)) := none
deriving DecidableEq

/-- `Blob` (types.py): raw bytes (embedded as a list of byte values) plus a
MIME type. -/
structure Blob where
  data : Option (List Nat) := none
  mime_type : Option String := none
deriving DecidableEq

/-- `Part` (types.py lines 415-450): one field per variant, all optional with
default `None`, in source declaration order.  The class body declares the
fields, the `from_*` classmethod conveniences, and nothing else: in
particular it declares no pydantic validator, so nothing at construction
time checks how many variant fields are populated. -/
structure Part where
  video_metadata : Option VideoMetadata := none
  code_execution_result : Option CodeExecutionResult := none
  executable_code : Option ExecutableCode := none
  file_data : Option FileData := none
  function_call : Option FunctionCall := none
  function_response : Option FunctionResponse := none
  inline_data : Option Blob := none
  text : Option String := none
deriving DecidableEq

/-- Errors raised by the layer under verification.  Python `ValueError`
raised by local validation is the spec taxonomy's `InvalidArgument`;
`unsupportedOnBackend` is the spec taxonomy's `UnsupportedOnBackend`. -/
inductive GenaiError where
  | invalidArgument (msg : String)
  | unsupportedOnBackend (msg : String)
deriving DecidableEq

/-- Construction of a `Part` (pydantic model construction either raises a
validation error or returns the instance).  The source class declares no
validators and every field is `Optional` with default `None`, so
construction with well-typed field values always returns the instance,
whatever combination of variant fields is populated. -/
def Part.construct (video_metadata : Option VideoMetadata)
    (code_execution_result : Option CodeExecutionResult)
    (executable_code : Option ExecutableCode) (file_data : Option FileData)
    (function_call : Option FunctionCall)
    (function_response : Option FunctionResponse) (inline_data : Option Blob)
    (text : Option String) : Except GenaiError Part :=
  .ok { video_metadata, code_execution_result, executable_code, file_data,
        function_call, function_response, inline_data, text }

/-- `Part.from_text` (types.py). -/
def Part.from_text (text : String) : Part := { text := some text }

/-- `Part.from_bytes` (types.py). -/
def Part.from_bytes (data : List Nat) (mime_type : String) : Part :=
  { inline_data := some { data := some data, mime_type := some mime_type } }

/-- Number of populated variant fields of a `Part` (used only to state the
one-of-N claims; the source has no such counter). -/
def Part.populatedVariantCount (p : Part) : Nat :=
  (if p.video_metadata.isSome then 1 else 0)
  + (if p.code_execution_result.isSome then 1 else 0)
  + (if p.executable_code.isSome then 1 else 0)
  + (if p.file_data.isSome then 1 else 0)
  + (if p.function_call.isSome then 1 else 0)
  + (if p.function_response.isSome then 1 else 0)
  + (if p.inline_data.isSome then 1 else 0)
  + (if p.text.isSome then 1 else 0)

/-- The first populated non-`text` field of a `Part`, by field declaration
order, with its source field name.  This is the order `part.dict(exclude=
set-of-text).items()` iterates in `GenerateContentResponse.text`
(types.py lines 2336-2342), which raises on the first non-`None` entry. -/
def Part.nonTextField (p : Part) : Option String :=
  if p.video_metadata.isSome then some "video_metadata"
  else if p.code_execution_result.isSome then some "code_execution_result"
  else if p.executable_code.isSome then some "executable_code"
  else if p.file_data.isSome then some "file_data"
  else if p.function_call.isSome then some "function_call"
  else if p.function_response.isSome then some "function_response"
  else if p.inline_data.isSome then some "inline_data"
  else none

/-- `Content` (types.py lines 537-548). -/
structure Content where
  parts : Option (List Part) := none
  role : Option String := none
deriving DecidableEq

/-- `Candidate` (types.py lines 2133 ff.).  Of its fields only `content` is
consulted by the properties under verification; the remaining catalog
fields (citation metadata, finish data, scores, ...) are omitted. -/
structure Candidate where
  content : Option Content := none
deriving DecidableEq

/-- `GenerateContentResponse` (types.py lines 2298-2347).  The
`prompt_feedback`, `usage_metadata` and `parsed` fields are not consulted
by the `text` property and are omitted. -/
structure GenerateContentResponse where
  candidates : Option (List Candidate) := none
  model_version : Option String := none
deriving DecidableEq

/-- The per-part loop of `GenerateContentResponse.text` (types.py lines
2334-2347): for each part, every field other than `text` is checked and a
`ValueError` naming the field is raised if it is populated; otherwise a
populated `text` is appended.  `acc` is the accumulated `text` string and
`anyText` the source's `any_text_part_text` flag; the source returns the
accumulated string only if some part had `text` set, else `None`. -/
def textAccLoop : List Part → String → Bool → Except GenaiError (Option String)
  | [], acc, anyText => .ok (if anyText then some acc else none)
  | p :: rest, acc, anyText =>
    match p.nonTextField with
    | some fieldName =>
        .error (.invalidArgument
          ("GenerateContentResponse.text only supports text parts, but got "
            ++ fieldName ++ " part"))
    | none =>
        match p.text with
        | some t => textAccLoop rest (acc ++ t) true
        | none => textAccLoop rest acc anyText

/-- The `GenerateContentResponse.text` property (types.py lines 2319-2347).
Returns `none` when there are no candidates, the first candidate has no
content, or the content's parts list is absent or empty; otherwise runs the
strict concatenation loop, which can raise.  (The source's
`logging.warning` on multiple candidates is a side effect with no bearing
on the returned value and is not modelled.) -/
def GenerateContentResponse.text (r : GenerateContentResponse) :
    Except GenaiError (Option String) :=
  match r.candidates with
  | none => .ok none
  | some [] => .ok none
  | some (c0 :: _) =>
    match c0.content with
    | none => .ok none
    | some content =>
      match content.parts with
      | none => .ok none
      | some [] => .ok none
      | some parts => textAccLoop parts "" false

/-- In-order concatenation of the `text` values of a list of parts (used to
state the claims about `GenerateContentResponse.text`). -/
def concatTexts : List Part → String
  | [] => ""
  | p :: rest => p.text.getD "" ++ concatTexts rest

/-! Job state literal lists (types.py lines 2826-2849).  "Vertex" is the
hosted cloud-platform backend and "MLDev" the direct developer backend. -/

/-- `JOB_STATES_SUCCEEDED_VERTEX` (types.py). -/
def JOB_STATES_SUCCEEDED_VERTEX : List String := ["JOB_STATE_SUCCEEDED"]

/-- `JOB_STATES_SUCCEEDED_MLDEV` (types.py). -/
def JOB_STATES_SUCCEEDED_MLDEV : List String := ["ACTIVE"]

/-- `JOB_STATES_SUCCEEDED` (types.py): the concatenation of the two
backend-specific lists. -/
def JOB_STATES_SUCCEEDED : List String :=
  JOB_STATES_SUCCEEDED_VERTEX ++ JOB_STATES_SUCCEEDED_MLDEV

/-- `JOB_STATES_ENDED_VERTEX` (types.py). -/
def JOB_STATES_ENDED_VERTEX : List String :=
  ["JOB_STATE_SUCCEEDED", "JOB_STATE_FAILED", "JOB_STATE_CANCELLED",
   "JOB_STATE_EXPIRED"]

/-- `JOB_STATES_ENDED_MLDEV` (types.py). -/
def JOB_STATES_ENDED_MLDEV : List String := ["ACTIVE", "FAILED"]

/-- `JOB_STATES_ENDED` (types.py): the concatenation of the two
backend-specific lists. -/
def JOB_STATES_ENDED : List String :=
  JOB_STATES_ENDED_VERTEX ++ JOB_STATES_ENDED_MLDEV

/-- `TuningJob` (types.py lines 4745 ff.).  `state` is `Optional[JobState]`,
a string-literal alias, embedded as an optional plain string (the
predicates under verification compare it against plain string lists).  The
remaining catalog fields (timestamps, tuning specs, labels, ...) are not
consulted by `has_ended`/`has_succeeded` and are omitted. -/
structure TuningJob where
  name : Option String := none
  state : Option String := none
deriving DecidableEq

/-- `TuningJob.has_ended` (types.py lines 4830-4833):
`self.state in JOB_STATES_ENDED`.  A `None` state is not a member of the
list, hence `false`. -/
def TuningJob.has_ended (j : TuningJob) : Bool :=
  match j.state with
  | some s => JOB_STATES_ENDED.contains s
  | none => false

/-- `TuningJob.has_succeeded` (types.py lines 4835-4838):
`self.state in JOB_STATES_SUCCEEDED`. -/
def TuningJob.has_succeeded (j : TuningJob) : Bool :=
  match j.state with
  | some s => JOB_STATES_SUCCEEDED.contains s
  | none => false

/-- The two API surfaces: `vertex` is the hosted cloud-platform backend
(Vertex AI), `mldev` the direct developer backend. -/
inductive Backend where
  | vertex
  | mldev
deriving DecidableEq

/-- The "ended" literal set specific to one backend. -/
def backendEndedStates : Backend → List String
  | .vertex => JOB_STATES_ENDED_VERTEX
  | .mldev => JOB_STATES_ENDED_MLDEV

/-- The "succeeded" literal set specific to one backend. -/
def backendSucceededStates : Backend → List String
  | .vertex => JOB_STATES_SUCCEEDED_VERTEX
  | .mldev => JOB_STATES_SUCCEEDED_MLDEV

/-- Formalisation of the claim's words, for comparison with the source's
`TuningJob.has_ended`: a predicate that "consults the terminal-state
literal set specific to the job's backend". -/
def specBackendHasEnded (b : Backend) (j : TuningJob) : Bool :=
  match j.state with
  | some s => (backendEndedStates b).contains s
  | none => false

/-- Formalisation of the claim's words, for comparison with the source's
`TuningJob.has_succeeded`: the backend-specific succeeded predicate. -/
def specBackendHasSucceeded (b : Backend) (j : TuningJob) : Bool :=
  match j.state with
  | some s => (backendSucceededStates b).contains s
  | none => false

/-! Cached-content creation config and the ttl/expire_time resolution. -/

/-- ISO-8601 timestamp carried opaquely (the source field is a Python
`datetime`; no verified function computes with its value). -/
abbrev DateTime := String

/-- `CreateCachedContentConfig` (types.py lines 5301-5334).  The
`http_options`, `system_instruction`, `tools` and `tool_config` fields are
not consulted by the expiry resolution and are omitted. -/
structure CreateCachedContentConfig where
  ttl : Option String := none
  expire_time : Option DateTime := none
  display_name : Option String := none
deriving DecidableEq

/-- The expiry input chosen for the wire request of a cache-create call. -/
inductive CacheExpiryWire where
  | ttl (value : String)
  | expireTime (value : DateTime)
deriving DecidableEq

/-- A recorded (non-raising) diagnostic. -/
inductive Diagnostic where
  | bothTtlAndExpireTimeSet
deriving DecidableEq

/-- Modelled from the spec: the caches request transcoder lives in the
repository's caches module, which is not under `src/` (only
`CreateCachedContentConfig` and the caches tests are).  Per the spec's
words, mutually exclusive optional inputs are resolved with a fixed
precedence: "if both are supplied, the more specific (`expire_time`) wins
and the other is ignored", with a diagnostic emitted when both are set and
no error raised.  Only this resolution step of the transcoder is modelled. -/
def transcodeCacheExpiry (c : CreateCachedContentConfig) :
    Except GenaiError (Option CacheExpiryWire × List Diagnostic) :=
  match c.ttl, c.expire_time with
  | some _, some t => .ok (some (.expireTime t), [.bothTtlAndExpireTimeSet])
  | some s, none => .ok (some (.ttl s), [])
  | none, some t => .ok (some (.expireTime t), [])
  | none, none => .ok (none, [])

/-! Batch-job name resolution for cancel/delete. -/

/-- Splits a character list at `/` separators. -/
def splitCharsOnSlash : List Char → List (List Char)
  | [] => [[]]
  | ch :: rest =>
    let r := splitCharsOnSlash rest
    if ch = '/' then [] :: r
    else
      match r with
      | seg :: segs => (ch :: seg) :: segs
      | [] => [[ch]]

/-- Splits a string at `/` separators into its path segments. -/
def pathSegments (s : String) : List String :=
  (splitCharsOnSlash s.toList).map (fun cs => String.mk cs)

/-- Whether a name is a fully-qualified hosted batch-job resource path
`projects/P/locations/L/batchPredictionJobs/ID` with non-empty segments. -/
def isFullBatchJobPath (name : String) : Bool :=
  match pathSegments name with
  | [a, p, b, l, c, jobId] =>
      a = "projects" && b = "locations" && c = "batchPredictionJobs"
        && p ≠ "" && l ≠ "" && jobId ≠ ""
  | _ => false

/-- Modelled from the spec: the batches module (name resolution shared by
`batches.cancel` and `batches.delete`) is not under `src/`; only its test
tables are (`tests/batches/test_cancel.py`, `tests/batches/test_delete.py`).
Per the spec and the expected exceptions of those test tables: on the
direct backend every batch-job call raises `UnsupportedOnBackend` (batch
jobs are hosted-only; the tests expect "only supported in the Vertex AI
client" for every name).  On the hosted backend a fully-qualified path
passes through unmodified, a bare numeric ID is expanded to
`projects/P/locations/L/batchPredictionJobs/ID` from the configured
project and location, and any other name raises `InvalidArgument` with a
message naming the offending value (the tests expect
"Invalid batch job name").  Resolution is pure: no network call occurs. -/
def resolveBatchJobName (backend : Backend) (project location name : String) :
    Except GenaiError String :=
  match backend with
  | .mldev =>
      .error (.unsupportedOnBackend
        "This method is only supported in the Vertex AI client.")
  | .vertex =>
      if isFullBatchJobPath name then
        .ok name
      else if !name.toList.isEmpty && name.toList.all Char.isDigit then
        .ok ("projects/" ++ project ++ "/locations/" ++ location
              ++ "/batchPredictionJobs/" ++ name)
      else
        .error (.invalidArgument ("Invalid batch job name: " ++ name ++ "."))

/-! Reference-image variants (types.py lines 6814-7123).  Each variant class
re-declares the shared fields `reference_image`, `reference_id`,
`reference_type` and defines a custom constructor that stamps the fixed
variant discriminator into `reference_type`; the constructor signature has
no `reference_type` parameter, so a caller going through it cannot choose
the discriminator.  Variants with a config re-map the supplied `config`
constructor argument to the variant-specific `*_image_config` field,
leaving the `config` field itself unset. -/

/-- `Image` (types.py lines 2725-2739): Cloud Storage URI or raw bytes
(embedded as a list of byte values).  The `_loaded_image` memoization cell
and the file helpers are display concerns outside the claims and are
omitted. -/
structure Image where
  gcs_uri : Option String := none
  image_bytes : Option (List Nat) := none
deriving DecidableEq

/-- `MaskReferenceConfig` (types.py lines 2924-2941).  `mask_mode` is a
`MaskReferenceMode` string literal; `mask_dilation` is a float, carried
opaquely. -/
structure MaskReferenceConfig where
  mask_mode : Option String := none
  segmentation_classes : Option (List Int) := none
  mask_dilation : Option Float := none

/-- `ControlReferenceConfig` (types.py lines 2963-2975): `control_type` is a
`ControlReferenceType` string literal. -/
structure ControlReferenceConfig where
  control_type : Option String := none
  enable_control_image_computation : Option Bool := none
deriving DecidableEq

/-- `StyleReferenceConfig` (types.py lines 2995-3002). -/
structure StyleReferenceConfig where
  style_description : Option String := none
deriving DecidableEq

/-- `SubjectReferenceConfig` (types.py lines 3016-3025): `subject_type` is a
`SubjectReferenceType` string literal. -/
structure SubjectReferenceConfig where
  subject_type : Option String := none
  subject_description : Option String := none
deriving DecidableEq

/-- `RawReferenceImage` (types.py lines 6814-6842). -/
structure RawReferenceImage where
  reference_image : Option Image := none
  reference_id : Option Int := none
  reference_type : Option String := none
deriving DecidableEq

/-- `RawReferenceImage.__init__` (types.py lines 6833-6842): takes only
`reference_image` and `reference_id` and stamps
`reference_type="REFERENCE_TYPE_RAW"`. -/
def RawReferenceImage.make (reference_image : Option Image)
    (reference_id : Option Int) : RawReferenceImage :=
  { reference_image, reference_id,
    reference_type := some "REFERENCE_TYPE_RAW" }

/-- `MaskReferenceImage` (types.py lines 6866-6908). -/
structure MaskReferenceImage where
  reference_image : Option Image := none
  reference_id : Option Int := none
  reference_type : Option String := none
  config : Option MaskReferenceConfig := none
  mask_image_config : Option MaskReferenceConfig := none

/-- `MaskReferenceImage.__init__` (types.py lines 6897-6908): stamps
`reference_type="REFERENCE_TYPE_MASK"`, leaves the `config` field unset and
stores the supplied config under `mask_image_config`. -/
def MaskReferenceImage.make (reference_image : Option Image)
    (reference_id : Option Int) (config : Option MaskReferenceConfig) :
    MaskReferenceImage :=
  { reference_image, reference_id,
    reference_type := some "REFERENCE_TYPE_MASK",
    config := none, mask_image_config := config }

/-- `ControlReferenceImage` (types.py lines 6939-6981). -/
structure ControlReferenceImage where
  reference_image : Option Image := none
  reference_id : Option Int := none
  reference_type : Option String := none
  config : Option ControlReferenceConfig := none
  control_image_config : Option ControlReferenceConfig := none
deriving DecidableEq

/-- `ControlReferenceImage.__init__` (types.py lines 6970-6981): stamps
`reference_type="REFERENCE_TYPE_CONTROL"` and stores the supplied config
under `control_image_config`. -/
def ControlReferenceImage.make (reference_image : Option Image)
    (reference_id : Option Int) (config : Option ControlReferenceConfig) :
    ControlReferenceImage :=
  { reference_image, reference_id,
    reference_type := some "REFERENCE_TYPE_CONTROL",
    config := none, control_image_config := config }

/-- `StyleReferenceImage` (types.py lines 7014-7054). -/
structure StyleReferenceImage where
  reference_image : Option Image := none
  reference_id : Option Int := none
  reference_type : Option String := none
  config : Option StyleReferenceConfig := none
  style_image_config : Option StyleReferenceConfig := none
deriving DecidableEq

/-- `StyleReferenceImage.__init__` (types.py lines 7043-7054): stamps
`reference_type="REFERENCE_TYPE_STYLE"` and stores the supplied config
under `style_image_config`. -/
def StyleReferenceImage.make (reference_image : Option Image)
    (reference_id : Option Int) (config : Option StyleReferenceConfig) :
    StyleReferenceImage :=
  { reference_image, reference_id,
    reference_type := some "REFERENCE_TYPE_STYLE",
    config := none, style_image_config := config }

/-- `SubjectReferenceImage` (types.py lines 7083-7123). -/
structure SubjectReferenceImage where
  reference_image : Option Image := none
  reference_id : Option Int := none
  reference_type : Option String := none
  config : Option SubjectReferenceConfig := none
  subject_image_config : Option SubjectReferenceConfig := none
deriving DecidableEq

/-- `SubjectReferenceImage.__init__` (types.py lines 7112-7123): stamps
`reference_type="REFERENCE_TYPE_SUBJECT"` and stores the supplied config
under `subject_image_config`. -/
def SubjectReferenceImage.make (reference_image : Option Image)
    (reference_id : Option Int) (config : Option SubjectReferenceConfig) :
    SubjectReferenceImage :=
  { reference_image, reference_id,
    reference_type := some "REFERENCE_TYPE_SUBJECT",
    config := none, subject_image_config := config }

/-! Theorems. -/

/-- If every part of a list satisfies the text-only discipline (no non-text
variant populated, `text` populated), the accumulation loop of
`GenerateContentResponse.text` returns the accumulator followed by the
in-order concatenation of the `text` values. -/
theorem textAccLoop_all_text (ps : List Part) :
    ∀ (acc : String) (b : Bool),
      (∀ p ∈ ps, p.nonTextField = none ∧ p.text.isSome) → ps ≠ [] →
      textAccLoop ps acc b = .ok (some (acc ++ concatTexts ps)) := by
  induction ps with
  | nil => intro acc b _ hne; exact absurd rfl hne
  | cons p rest ih =>
    intro acc b h _
    obtain ⟨hnt, hts⟩ := h p (List.mem_cons_self p rest)
    obtain ⟨t, ht⟩ := Option.isSome_iff_exists.mp hts
    cases rest with
    | nil =>
      simp [textAccLoop, hnt, ht, concatTexts]
    | cons q qs =>
      have hrest : ∀ x ∈ q :: qs, x.nonTextField = none ∧ x.text.isSome :=
        fun x hx => h x (List.mem_cons_of_mem p hx)
      have ihr := ih (acc ++ t) true hrest (List.cons_ne_nil q qs)
      have hstep : textAccLoop (p :: q :: qs) acc b
          = textAccLoop (q :: qs) (acc ++ t) true := by
        simp only [textAccLoop, hnt, ht]
      rw [hstep, ihr]
      simp [concatTexts, ht, String.append_assoc]

/-- If some part of a list has a populated non-text variant field, the
accumulation loop of `GenerateContentResponse.text` raises. -/
theorem textAccLoop_error (ps : List Part) :
    ∀ (acc : String) (b : Bool),
      (∃ p ∈ ps, p.nonTextField ≠ none) →
      ∃ msg, textAccLoop ps acc b = .error (.invalidArgument msg) := by
  induction ps with
  | nil =>
    intro acc b h
    obtain ⟨p, hp, _⟩ := h
    exact absurd hp (List.not_mem_nil p)
  | cons p rest ih =>
    intro acc b h
    cases hnt : p.nonTextField with
    | some fieldName =>
      refine ⟨"GenerateContentResponse.text only supports text parts, but got "
          ++ fieldName ++ " part", ?_⟩
      simp [textAccLoop, hnt]
    | none =>
      obtain ⟨q, hq, hqn⟩ := h
      rcases List.mem_cons.mp hq with rfl | hq2
      · exact absurd hnt hqn
      · cases hpt : p.text with
        | some t =>
          obtain ⟨msg, hm⟩ := ih (acc ++ t) true ⟨q, hq2, hqn⟩
          exact ⟨msg, by simp [textAccLoop, hnt, hpt, hm]⟩
        | none =>
          obtain ⟨msg, hm⟩ := ih acc b ⟨q, hq2, hqn⟩
          exact ⟨msg, by simp [textAccLoop, hnt, hpt, hm]⟩

/-- C1 (counterexample): constructing a `Part` with two populated variant
fields (`inline_data` and `text`) does NOT raise `InvalidArgument` — the
construction returns the instance, whose populated-variant count is 2.
The `Part` class declares no validator, so the claimed construction-time
one-of-N check does not exist in the code. -/
theorem part_construct_two_variants_counterexample :
    Part.construct none none none none none none
        (some { data := some [104, 105], mime_type := some "text/plain" })
        (some "hi")
      = .ok { inline_data :=
                some { data := some [104, 105], mime_type := some "text/plain" },
              text := some "hi" }
    ∧ (Part.mk none none none none none none
        (some { data := some [104, 105], mime_type := some "text/plain" })
        (some "hi")).populatedVariantCount = 2 :=
  ⟨rfl, rfl⟩

/-- C1 (amended): constructing a `Part` never raises, whatever the number of
populated variant fields — with exactly one populated variant it never
raises (as the claim states), but with two or more it does not raise
either: construction returns the instance unchecked, and the one-of-N
discipline is enforced only at access points such as the response text
accessor. -/
theorem part_construct_never_raises (v : Option VideoMetadata)
    (c : Option CodeExecutionResult) (e : Option ExecutableCode)
    (f : Option FileData) (fc : Option FunctionCall)
    (fr : Option FunctionResponse) (i : Option Blob) (t : Option String) :
    Part.construct v c e f fc fr i t = .ok ⟨v, c, e, f, fc, fr, i, t⟩ := rfl

/-- C2: for a response whose first candidate has a non-empty parts list, if
every part has only its `text` field populated the `text` property returns
the in-order concatenation of the text values, and if any part has a
non-text variant field populated the `text` property raises an
`InvalidArgument`-class error (Python `ValueError`) rather than silently
dropping that part. -/
theorem text_accessor_strict (r : GenerateContentResponse) (c0 : Candidate)
    (cs : List Candidate) (ct : Content) (ps : List Part)
    (h1 : r.candidates = some (c0 :: cs)) (h2 : c0.content = some ct)
    (h3 : ct.parts = some ps) (h4 : ps ≠ []) :
    ((∀ p ∈ ps, p.nonTextField = none ∧ p.text.isSome) →
      r.text = .ok (some (concatTexts ps)))
    ∧ ((∃ p ∈ ps, p.nonTextField ≠ none) →
      ∃ msg, r.text = .error (.invalidArgument msg)) := by
  obtain ⟨p0, ps', rfl⟩ : ∃ p0 ps', ps = p0 :: ps' := by
    cases ps with
    | nil => exact absurd rfl h4
    | cons a b => exact ⟨a, b, rfl⟩
  have hr : r.text = textAccLoop (p0 :: ps') "" false := by
    simp [GenerateContentResponse.text, h1, h2, h3]
  constructor
  · intro hall
    rw [hr, textAccLoop_all_text (p0 :: ps') "" false hall
      (List.cons_ne_nil p0 ps'), String.empty_append]
  · intro hex
    rw [hr]
    exact textAccLoop_error (p0 :: ps') "" false hex

/-- A text-only two-part list, concatenating to "Hello, world". -/
def exTextParts : List Part :=
  [{ text := some "Hello, " }, { text := some "world" }]

/-- A `[text, inlineData]` part list (a non-text variant alongside text). -/
def exMixedParts : List Part :=
  [{ text := some "Hello" },
   { inline_data := some { data := some [1], mime_type := some "image/png" } }]

/-- A response whose single candidate carries `exTextParts`. -/
def exTextResponse : GenerateContentResponse :=
  { candidates := some [{ content := some { parts := some exTextParts } }] }

/-- A response whose single candidate carries `exMixedParts`. -/
def exMixedResponse : GenerateContentResponse :=
  { candidates := some [{ content := some { parts := some exMixedParts } }] }

/-- C2 (witness): a candidate with parts `["Hello, ", "world"]` (text only)
yields `"Hello, world"`; a candidate with parts `[text, inlineData]`
raises. -/
theorem text_accessor_strict_witness :
    exTextResponse.text = .ok (some "Hello, world")
    ∧ ∃ msg, exMixedResponse.text = .error (.invalidArgument msg) := by
  constructor
  · have h := (text_accessor_strict exTextResponse
      { content := some { parts := some exTextParts } } []
      { parts := some exTextParts } exTextParts
      rfl rfl rfl (by simp [exTextParts])).1 (by decide)
    rw [h]; rfl
  · exact (text_accessor_strict exMixedResponse
      { content := some { parts := some exMixedParts } } []
      { parts := some exMixedParts } exMixedParts
      rfl rfl rfl (by simp [exMixedParts])).2 (by decide)

/-- C3 (counterexample): the source predicates do not consult a
backend-specific set — they consult the single combined list
`JOB_STATES_ENDED`/`JOB_STATES_SUCCEEDED` shared across backends.  A hosted
job carrying the direct-backend-only state "ACTIVE" reports
`has_ended = true` and `has_succeeded = true`, while the hosted ("vertex")
literal sets do not contain "ACTIVE", so the code's predicate disagrees
with the claim's backend-specific predicate at this input. -/
theorem job_predicates_shared_vocabulary_counterexample :
    TuningJob.has_ended { state := some "ACTIVE" } = true
    ∧ TuningJob.has_succeeded { state := some "ACTIVE" } = true
    ∧ specBackendHasEnded Backend.vertex { state := some "ACTIVE" } = false
    ∧ specBackendHasSucceeded Backend.vertex { state := some "ACTIVE" } = false
    ∧ TuningJob.has_ended { state := some "ACTIVE" }
        ≠ specBackendHasEnded Backend.vertex { state := some "ACTIVE" } := by
  decide

/-- C3 (amended): `has_ended`/`has_succeeded` consult the one combined
literal list formed by concatenating both backends' sets, taking no
backend into account; consequently the claim's three concrete examples
hold ("JOB_STATE_SUCCEEDED" reports both true, "ACTIVE" reports both true,
"JOB_STATE_RUNNING" reports `has_ended = false`), but they hold for a job
of either backend, not through backend-specific consultation. -/
theorem job_terminal_classification_amended :
    TuningJob.has_ended { state := some "JOB_STATE_SUCCEEDED" } = true
    ∧ TuningJob.has_succeeded { state := some "JOB_STATE_SUCCEEDED" } = true
    ∧ TuningJob.has_ended { state := some "ACTIVE" } = true
    ∧ TuningJob.has_succeeded { state := some "ACTIVE" } = true
    ∧ TuningJob.has_ended { state := some "JOB_STATE_RUNNING" } = false
    ∧ (∀ j : TuningJob, TuningJob.has_ended j =
        (match j.state with
         | some s =>
             (JOB_STATES_ENDED_VERTEX ++ JOB_STATES_ENDED_MLDEV).contains s
         | none => false))
    ∧ (∀ j : TuningJob, TuningJob.has_succeeded j =
        (match j.state with
         | some s =>
             (JOB_STATES_SUCCEEDED_VERTEX
               ++ JOB_STATES_SUCCEEDED_MLDEV).contains s
         | none => false)) :=
  ⟨by decide, by decide, by decide, by decide, by decide,
   fun _ => rfl, fun _ => rfl⟩

/-- C4: the backend-specific job-state literal sets are reproduced exactly
as the spec lists them. -/
theorem job_state_literal_sets_exact :
    (∀ s : String, s ∈ JOB_STATES_SUCCEEDED_VERTEX ↔
      s = "JOB_STATE_SUCCEEDED")
    ∧ (∀ s : String, s ∈ JOB_STATES_SUCCEEDED_MLDEV ↔ s = "ACTIVE")
    ∧ (∀ s : String, s ∈ JOB_STATES_ENDED_VERTEX ↔
        (s = "JOB_STATE_SUCCEEDED" ∨ s = "JOB_STATE_FAILED"
          ∨ s = "JOB_STATE_CANCELLED" ∨ s = "JOB_STATE_EXPIRED"))
    ∧ (∀ s : String, s ∈ JOB_STATES_ENDED_MLDEV ↔
        (s = "ACTIVE" ∨ s = "FAILED")) := by
  refine ⟨fun s => ?_, fun s => ?_, fun s => ?_, fun s => ?_⟩ <;>
    simp [JOB_STATES_SUCCEEDED_VERTEX, JOB_STATES_SUCCEEDED_MLDEV,
      JOB_STATES_ENDED_VERTEX, JOB_STATES_ENDED_MLDEV]

/-- C5: a cache-create config supplying both `ttl` and `expire_time`
transcodes to the wire expiry taken from `expire_time`'s value (the `ttl`
is ignored), with a recorded diagnostic, without raising.  (The caches
transcoder is modelled from the spec, see `transcodeCacheExpiry`.) -/
theorem cache_expiry_expire_time_wins (c : CreateCachedContentConfig)
    (tv : String) (ev : DateTime) (ht : c.ttl = some tv)
    (he : c.expire_time = some ev) :
    transcodeCacheExpiry c
      = .ok (some (.expireTime ev), [.bothTtlAndExpireTimeSet]) := by
  simp [transcodeCacheExpiry, ht, he]

/-- C5 (witness): both `ttl="86400s"` and an explicit expire time supplied. -/
theorem cache_expiry_expire_time_wins_witness :
    transcodeCacheExpiry
        { ttl := some "86400s", expire_time := some "2024-12-20T00:00:00Z" }
      = .ok (some (.expireTime "2024-12-20T00:00:00Z"),
             [.bothTtlAndExpireTimeSet]) :=
  cache_expiry_expire_time_wins _ "86400s" "2024-12-20T00:00:00Z" rfl rfl

/-- C6: on the direct (mldev) backend, batch-job name resolution for
cancel/delete raises `UnsupportedOnBackend` for every name — bare ID,
fully-qualified path and malformed names alike (batch jobs are
hosted-only).  (The batches module is modelled from the spec and its test
tables, see `resolveBatchJobName`.) -/
theorem batch_jobs_hosted_only (project location name : String) :
    resolveBatchJobName Backend.mldev project location name
      = .error (.unsupportedOnBackend
          "This method is only supported in the Vertex AI client.") := rfl

/-- C7: on the hosted (vertex) backend, resolving the batch-job name
"invalid_name" — neither a bare numeric ID nor a known resource-path
shape — raises `InvalidArgument` with a message naming the offending
value; resolution is pure, so this happens before any network call. -/
theorem batch_job_invalid_name (project location : String) :
    resolveBatchJobName Backend.vertex project location "invalid_name"
      = .error (.invalidArgument
          ("Invalid batch job name: " ++ "invalid_name" ++ ".")) := rfl

/-- C8: every reference-image variant constructor stamps its fixed
discriminator into `reference_type` — the constructors take no
`reference_type` argument, and the stamped value is constant in every
argument the caller can supply — and stores the supplied config under the
variant-specific `*_image_config` field, leaving the `config` field
unset. -/
theorem reference_image_discriminators :
    (∀ (ri : Option Image) (rid : Option Int),
      (RawReferenceImage.make ri rid).reference_type
        = some "REFERENCE_TYPE_RAW")
    ∧ (∀ (ri : Option Image) (rid : Option Int)
        (cfg : Option MaskReferenceConfig),
        (MaskReferenceImage.make ri rid cfg).reference_type
            = some "REFERENCE_TYPE_MASK"
        ∧ (MaskReferenceImage.make ri rid cfg).mask_image_config = cfg
        ∧ (MaskReferenceImage.make ri rid cfg).config = none)
    ∧ (∀ (ri : Option Image) (rid : Option Int)
        (cfg : Option ControlReferenceConfig),
        (ControlReferenceImage.make ri rid cfg).reference_type
            = some "REFERENCE_TYPE_CONTROL"
        ∧ (ControlReferenceImage.make ri rid cfg).control_image_config = cfg
        ∧ (ControlReferenceImage.make ri rid cfg).config = none)
    ∧ (∀ (ri : Option Image) (rid : Option Int)
        (cfg : Option StyleReferenceConfig),
        (StyleReferenceImage.make ri rid cfg).reference_type
            = some "REFERENCE_TYPE_STYLE"
        ∧ (StyleReferenceImage.make ri rid cfg).style_image_config = cfg
        ∧ (StyleReferenceImage.make ri rid cfg).config = none)
    ∧ (∀ (ri : Option Image) (rid : Option Int)
        (cfg : Option SubjectReferenceConfig),
        (SubjectReferenceImage.make ri rid cfg).reference_type
            = some "REFERENCE_TYPE_SUBJECT"
        ∧ (SubjectReferenceImage.make ri rid cfg).subject_image_config = cfg
        ∧ (SubjectReferenceImage.make ri rid cfg).config = none) :=
  ⟨fun _ _ => rfl, fun _ _ _ => ⟨rfl, rfl, rfl⟩, fun _ _ _ => ⟨rfl, rfl, rfl⟩,
   fun _ _ _ => ⟨rfl, rfl, rfl⟩, fun _ _ _ => ⟨rfl, rfl, rfl⟩⟩

/-- C9: `has_succeeded` implies `has_ended` for every `TuningJob` — each
literal of the succeeded lists is also in the ended lists. -/
theorem succeeded_implies_ended (j : TuningJob)
    (h : j.has_succeeded = true) : j.has_ended = true := by
  cases hs : j.state with
  | none => simp [TuningJob.has_succeeded, hs] at h
  | some s =>
    simp only [TuningJob.has_succeeded, hs] at h
    simp only [TuningJob.has_ended, hs]
    have hmem : s = "JOB_STATE_SUCCEEDED" ∨ s = "ACTIVE" := by
      simpa [JOB_STATES_SUCCEEDED, JOB_STATES_SUCCEEDED_VERTEX,
        JOB_STATES_SUCCEEDED_MLDEV] using h
    rcases hmem with rfl | rfl <;> decide

/-- C9 (witness): a job with state "ACTIVE" has succeeded and has ended. -/
theorem succeeded_implies_ended_witness :
    TuningJob.has_succeeded { state := some "ACTIVE" } = true
    ∧ TuningJob.has_ended { state := some "ACTIVE" } = true :=
  ⟨by decide, succeeded_implies_ended { state := some "ACTIVE" } (by decide)⟩

/-- C10: a response with no candidates, or whose first candidate has no
content or an absent or empty parts list, has `text = none` and the
property does not raise. -/
theorem text_none_on_empty (r : GenerateContentResponse)
    (h : r.candidates = none ∨ r.candidates = some [] ∨
      ∃ c0 cs, r.candidates = some (c0 :: cs) ∧
        (c0.content = none ∨
          ∃ ct, c0.content = some ct ∧
            (ct.parts = none ∨ ct.parts = some []))) :
    r.text = .ok none := by
  rcases h with h | h | ⟨c0, cs, hc, h⟩
  · simp [GenerateContentResponse.text, h]
  · simp [GenerateContentResponse.text, h]
  · rcases h with h | ⟨ct, hct, h⟩
    · simp [GenerateContentResponse.text, hc, h]
    · rcases h with h | h
      · simp [GenerateContentResponse.text, hc, hct, h]
      · simp [GenerateContentResponse.text, hc, hct, h]

/-- C10 (witness): the three degenerate shapes — no candidates, first
candidate without content, and content with an absent parts list — all
yield `none` without raising. -/
theorem text_none_on_empty_witness :
    GenerateContentResponse.text {} = .ok none
    ∧ GenerateContentResponse.text { candidates := some [{}] } = .ok none
    ∧ GenerateContentResponse.text
        { candidates := some [{ content := some {} }] } = .ok none :=
  ⟨text_none_on_empty {} (Or.inl rfl),
   text_none_on_empty { candidates := some [{}] }
     (Or.inr (Or.inr ⟨{}, [], rfl, Or.inl rfl⟩)),
   text_none_on_empty { candidates := some [{ content := some {} }] }
     (Or.inr (Or.inr ⟨{ content := some {} }, [], rfl,
       Or.inr ⟨{}, rfl, Or.inl rfl⟩⟩))⟩

end Genai
